import Mathlib

/-!
Verification development for the excel-MP-report aggregation service.

The development shallowly embeds the Python sources:
  * a fragment of the pandas operations the pipeline uses
    (`pd.concat`, `DataFrame.merge(how='left')`, column selection,
    `drop_duplicates`, `Series.isin` filtering),
  * the marketplace API client loops (`src/app/api/{wb,ozon,yandex}.py`),
  * the data shapers (`src/app/data_processor/*.py`),
  * the aggregator pipeline (`src/app/main.py`).

Scalar cell values are modelled by `Val`; raw API records are modelled by
structures whose fields mirror exactly the `.get` accesses the shapers
perform.  Operations that can raise in Python return `Except String _`.
-/

/-- A scalar cell value: pandas NaN/None is `null`, numbers are modelled by
integers, everything else by strings. -/
inductive Val where
  | null : Val
  | num : Int → Val
  | str : String → Val
deriving DecidableEq, Repr

/-- A pandas DataFrame: a list of column names and a list of rows, each row a
list of cell values positionally matching `cols`. -/
structure Table where
  cols : List String
  rows : List (List Val)
deriving DecidableEq, Repr

/-- `pd.DataFrame()`: the empty frame, with no columns. -/
def Table.emptyDF : Table := ⟨[], []⟩

/-- Value of `row` (laid out along `cols`) at column `c`; missing column or
short row yields NaN (`Val.null`), matching pandas reindexing. -/
def rowVal (cols : List String) (row : List Val) (c : String) : Val :=
  match cols.indexOf? c with
  | some i => row.getD i Val.null
  | none => Val.null

/-- Append the columns of `cs` that are not already in `acc` (first-appearance
order, as `pd.concat` aligns columns with sort=False). -/
def addCols (acc : List String) (cs : List String) : List String :=
  acc ++ cs.filter (fun c => !acc.contains c)

/-- Union of column lists in order of first appearance. -/
def unionCols (ls : List (List String)) : List String := ls.foldl addCols []

/-- Re-express the rows of `t` along the column list `cs`; columns absent from
`t` are filled with NaN. -/
def Table.alignTo (t : Table) (cs : List String) : List (List Val) :=
  t.rows.map (fun r => cs.map (fun c => rowVal t.cols r c))

/-- `pd.concat`: raises `ValueError` on an empty list of objects, otherwise
stacks the rows over the union of the columns. -/
def pdConcat (ts : List Table) : Except String Table :=
  if ts.isEmpty then Except.error "ValueError: No objects to concatenate"
  else
    let cs := unionCols (ts.map Table.cols)
    Except.ok ⟨cs, (ts.map (fun t => t.alignTo cs)).flatten⟩

/-- Keep the elements of the second list not already emitted (the first list
accumulates what has been seen). -/
def dedupAux {α : Type} [DecidableEq α] : List α → List α → List α
  | _, [] => []
  | seen, x :: rest =>
    if x ∈ seen then dedupAux seen rest
    else x :: dedupAux (x :: seen) rest

/-- Remove duplicates keeping the first occurrence (pandas
`drop_duplicates`). -/
def dedupKeepFirst {α : Type} [DecidableEq α] (l : List α) : List α :=
  dedupAux [] l

/-- `df.drop_duplicates()` over whole rows (`.reset_index(drop=True)` is a
no-op in this model, which carries no index). -/
def Table.drop_duplicates (t : Table) : Table := ⟨t.cols, dedupKeepFirst t.rows⟩

/-- `df[[c1, ..., cn]]`: column selection; raises `KeyError` when any of the
requested columns is missing (in particular on `pd.DataFrame()`). -/
def Table.select (t : Table) (cs : List String) : Except String Table :=
  if cs.all (fun c => t.cols.contains c) then
    Except.ok ⟨cs, t.rows.map (fun r => cs.map (fun c => rowVal t.cols r c))⟩
  else Except.error "KeyError"

/-- `df[c]` as a list of values (`Series.tolist`); raises `KeyError` when the
column is missing. -/
def Table.colValues (t : Table) (c : String) : Except String (List Val) :=
  if t.cols.contains c then Except.ok (t.rows.map (fun r => rowVal t.cols r c))
  else Except.error "KeyError"

/-- Output rows a left-merge produces for one left row `lr`: one row per
matching right row (right order), or a single row padded with NaN in the
enrichment columns when nothing matches. -/
def mergeRow (lcols rcols enrich : List String) (rrows : List (List Val))
    (key : String) (lr : List Val) : List (List Val) :=
  let ms := rrows.filter (fun rr => rowVal rcols rr key == rowVal lcols lr key)
  if ms.isEmpty then [lr ++ enrich.map (fun _ => Val.null)]
  else ms.map (fun rr => lr ++ enrich.map (fun c => rowVal rcols rr c))

/-- `left.merge(right, on=key, how='left')`: keeps every left row (in left
order, matches in right order); raises `KeyError` when the key column is
missing on either side.  (The pipeline's merges have no overlapping non-key
columns, so suffixing is not modelled.) -/
def Table.merge (l r : Table) (key : String) : Except String Table :=
  if l.cols.contains key && r.cols.contains key then
    Except.ok ⟨l.cols ++ r.cols.filter (fun c => c != key),
      l.rows.flatMap
        (mergeRow l.cols r.cols (r.cols.filter (fun c => c != key)) r.rows key)⟩
  else Except.error "KeyError"

/-- `df[df[c].isin(vals)]`: keep the rows whose value at `c` occurs in
`vals`; raises `KeyError` when the column is missing. -/
def Table.filterIsin (t : Table) (c : String) (vals : List Val) :
    Except String Table :=
  if t.cols.contains c then
    Except.ok ⟨t.cols, t.rows.filter (fun r => vals.contains (rowVal t.cols r c))⟩
  else Except.error "KeyError"

/-! ### Raw API records

Each structure mirrors exactly the `.get` accesses the data shapers perform
on the decoded JSON; a field is `Option` because the Python dict may lack the
key, in which case the shaper substitutes the documented default. -/

/-- Ozon `/v4/product/info/attributes` result entry. -/
structure OzonInfoRec where
  barcode : Option String
  offer_id : Option String
  sku : Option Int
  id : Option Int
deriving DecidableEq, Repr

/-- One product line inside an Ozon posting. -/
structure OzonProductRec where
  name : Option String
  offer_id : Option String
  sku : Option Int
  price : Option String
  quantity : Option Int
deriving DecidableEq, Repr

/-- One Ozon FBO/FBS posting. -/
structure OzonPostingRec where
  created_at : Option String
  in_process_at : Option String
  order_id : Option Int
  order_number : Option String
  posting_number : Option String
  products : List OzonProductRec
deriving DecidableEq, Repr

/-- Ozon `/v1/analytics/stocks` item. -/
structure OzonStockRec where
  name : Option String
  offer_id : Option String
  sku : Option Int
  available_stock_count : Option Int
  warehouse_id : Option Int
  warehouse_name : Option String
  cluster_id : Option Int
deriving DecidableEq, Repr

/-- The `offer` object of a Yandex offer-mapping. -/
structure YOfferRec where
  offerId : Option String
  barcodes : List String
  name : Option String
  vendor : Option String
  vendorCode : Option String
deriving DecidableEq, Repr

/-- One Yandex offer-mapping entry (`mapping.get('offer', {})`). -/
structure YMappingRec where
  offer : Option YOfferRec
deriving DecidableEq, Repr

/-- One item of a Yandex order. -/
structure YOrderItemRec where
  id : Option Int
  offerId : Option String
  offerName : Option String
  price : Option Int
  buyerPrice : Option Int
  buyerPriceBeforeDiscount : Option Int
  vat : Option String
  count : Option Int
deriving DecidableEq, Repr

/-- One Yandex order. -/
structure YOrderRec where
  creationDate : Option String
  id : Option Int
  items : List YOrderItemRec
deriving DecidableEq, Repr

/-- One stock entry of a Yandex offer (`{'type': _, 'count': _}`). -/
structure YStockEntryRec where
  type : Option String
  count : Option Int
deriving DecidableEq, Repr

/-- One offer inside a Yandex stocks warehouse block. -/
structure YStockOfferRec where
  offerId : Option String
  updatedAt : Option String
  stocks : List YStockEntryRec
deriving DecidableEq, Repr

/-- One warehouse block of the Yandex offers/stocks response. -/
structure YStockWarehouseRec where
  warehouseId : Option Int
  offers : List YStockOfferRec
deriving DecidableEq, Repr

/-- One entry of the Yandex `/warehouses` list. -/
structure YWarehouseRec where
  id : Option Int
  name : Option String
deriving DecidableEq, Repr

/-! ### API client models (`src/app/api/`)

An HTTP interaction is modelled by the response the upstream produces for it.
The client functions are total: every `try/except` branch of the Python code
is an explicit match arm. -/

/-- Decoded JSON body of a 200 Wildberries response: the expected JSON array
of flat records, or any other JSON document (e.g. an error object), which
`get_wb_orders`/`get_wb_stocks` return unchanged. -/
inductive WBBody where
  | jlist : List (List (String × Val)) → WBBody
  | jother : String → WBBody
deriving DecidableEq, Repr

/-- Outcome of one WB HTTP request: the request itself raised, or a response
arrived with a status and a body (`none` = `.json()` raised). -/
inductive WBResp where
  | exn : WBResp
  | resp : Nat → Option WBBody → WBResp
deriving DecidableEq, Repr

/-- `wb.get_wb_orders`: validates `flag`, then returns the decoded 200 body
unchanged; every failure branch (connection error, unexpected exception,
status 429, any other non-200 status, undecodable body) returns `[]`.
The `api_key` isinstance check always passes here since the key is a
`String` by type. -/
def get_wb_orders (flag : Int) (r : WBResp) : WBBody :=
  if flag ≠ 0 ∧ flag ≠ 1 then WBBody.jlist []
  else
    match r with
    | WBResp.resp 200 (some body) => body
    | _ => WBBody.jlist []

/-- `wb.get_wb_stocks`: same routing as the orders fetch, no flag. -/
def get_wb_stocks (r : WBResp) : WBBody :=
  match r with
  | WBResp.resp 200 (some body) => body
  | _ => WBBody.jlist []

/-- Outcome of one Ozon/Yandex JSON request: the request raised, a non-200
status arrived, or a 200 arrived and the `.get` navigation extracted the
expected payload (a failed `.get` chain with defaults yields `ok []`; a
navigation that raises falls under `exn`, caught by the same handler). -/
inductive ApiResp (α : Type) where
  | exn : ApiResp α
  | err : Nat → ApiResp α
  | ok : α → ApiResp α
deriving DecidableEq, Repr

/-- Extracted payload: the 200 result, `[]` on any failure. -/
def apiItems {α : Type} : ApiResp (List α) → List α
  | ApiResp.ok l => l
  | ApiResp.exn => []
  | ApiResp.err _ => []

/-- `ozon.get_ozon_product_info_attributes`: single request, result list on
200, `[]` on any failure. -/
def get_ozon_product_info_attributes (r : ApiResp (List OzonInfoRec)) :
    List OzonInfoRec :=
  apiItems r

/-- Batch size of the analytics-stocks fetch (`chunk_size = 100`). -/
def ozonChunkSize : Nat := 100

/-- The `for i in range(0, len(skus), chunk_size)` loop of
`get_ozon_analytics_stocks`: issues one request per 100-element chunk of
`skus` (first component: the chunk payloads, in order) and accumulates the
per-chunk items (second component); a failed chunk contributes nothing. -/
def analyticsLoop (env : List String → ApiResp (List OzonStockRec))
    (skus : List String) : List (List String) × List OzonStockRec :=
  if skus = [] then ([], [])
  else
    let chunk := skus.take ozonChunkSize
    let rest := analyticsLoop env (skus.drop ozonChunkSize)
    (chunk :: rest.1, apiItems (env chunk) ++ rest.2)
termination_by skus.length
decreasing_by
  rename_i h
  simp only [List.length_drop]
  have hk : 0 < ozonChunkSize := by decide
  have hne : skus.length ≠ 0 := fun h0 => h (List.length_eq_zero.mp h0)
  omega

/-- `ozon.get_ozon_analytics_stocks`: early `[]` on an empty SKU list, then
the chunking loop. -/
def get_ozon_analytics_stocks (env : List String → ApiResp (List OzonStockRec))
    (skus : List String) : List (List String) × List OzonStockRec :=
  if skus = [] then ([], [])
  else analyticsLoop env skus

/-- One day, in the minute-granularity timeline of this model. -/
def ozonDayMinutes : Nat := 1440

/-- The `while current_since < end_date` loop of
`get_ozon_posting_fbo_list`: one request per day-window
`(current, min (current + 1 day) end)` (first component, in chronological
order), accumulating per-window items (second component). -/
def fboLoop (env : Nat × Nat → ApiResp (List OzonPostingRec))
    (cur endT : Nat) : List (Nat × Nat) × List OzonPostingRec :=
  if cur < endT then
    let chunkTo := min (cur + ozonDayMinutes) endT
    let rest := fboLoop env (cur + ozonDayMinutes) endT
    ((cur, chunkTo) :: rest.1, apiItems (env (cur, chunkTo)) ++ rest.2)
  else ([], [])
termination_by endT - cur
decreasing_by
  rename_i h
  have hd : 0 < ozonDayMinutes := by decide
  omega

/-- A caller-supplied date string as `datetime.strptime` with format
`%Y-%m-%dT%H:%M:%S.%fZ` sees it: either it matches the format and parses to
a minute-granularity timestamp, or it is any other string (including
plausible RFC3339 stamps without fractional seconds) and parsing raises. -/
inductive DateStr where
  | wellFormed : Nat → DateStr
  | malformed : String → DateStr
deriving DecidableEq, Repr

/-- `datetime.strptime(s, "%Y-%m-%dT%H:%M:%S.%fZ")`: the parsed timestamp,
or the `ValueError` it raises on a non-matching string. -/
def strptime : DateStr → Except String Nat
  | DateStr.wellFormed t => Except.ok t
  | DateStr.malformed s =>
    Except.error ("ValueError: time data '" ++ s ++ "' does not match format")

/-- `ozon.get_ozon_posting_fbo_list`: the two `strptime` calls on
`since`/`to` happen OUTSIDE the function's try/except (ozon.py lines 88-89;
the try starts inside the loop), so their `ValueError` escapes to the
caller; with both dates parsed, the day-window loop runs and its per-window
request failures are swallowed. -/
def get_ozon_posting_fbo_list (env : Nat × Nat → ApiResp (List OzonPostingRec))
    (sinceD toD : DateStr) :
    Except String (List (Nat × Nat) × List OzonPostingRec) := do
  let cur ← strptime sinceD
  let endT ← strptime toD
  Except.ok (fboLoop env cur endT)

/-- The fixed payload of one FBS page request. -/
structure FbsPayload where
  limit : Nat
  offset : Nat
deriving DecidableEq, Repr

/-- `ozon.get_ozon_posting_fbs_list`: issues exactly one request with
`limit = 1000` and the given offset, returns its postings (or `[]` on
failure); there is no follow-up request. -/
def get_ozon_posting_fbs_list
    (env : FbsPayload → ApiResp (List OzonPostingRec)) (offset : Nat) :
    List FbsPayload × List OzonPostingRec :=
  ([⟨1000, offset⟩], apiItems (env ⟨1000, offset⟩))

/-- The shaper (`ozon_get_data_tasks.process_postings`) calls the FBS fetch
without an `offset` argument, so Python's default `offset = 0` applies. -/
def fbs_call_from_shaper
    (env : FbsPayload → ApiResp (List OzonPostingRec)) :
    List FbsPayload × List OzonPostingRec :=
  get_ozon_posting_fbs_list env 0

/-- Outcome of one page request of a cursor-paginated Yandex fetch: raised,
non-200 status, or a 200 page with its items and its (possibly absent)
`nextPageToken`. -/
inductive YResp (α : Type) where
  | exn : YResp α
  | err : Nat → YResp α
  | ok : List α → Option String → YResp α
deriving DecidableEq, Repr

/-- The shared recursion of the three cursor-paginated Yandex fetches,
driven by the successive upstream responses: accumulate items of the current
page, recurse exactly when the page carries a `nextPageToken`; a failed page
contributes nothing and ends the recursion (the caller keeps what it already
accumulated). -/
def yandexPaginate {α : Type} : List (YResp α) → List α
  | [] => []
  | YResp.exn :: _ => []
  | YResp.err _ :: _ => []
  | YResp.ok items none :: _ => items
  | YResp.ok items (some _) :: rest => items ++ yandexPaginate rest

/-- `yandex.get_yandex_offers_stocks`, pages = successive responses. -/
def get_yandex_offers_stocks (pages : List (YResp YStockWarehouseRec)) :
    List YStockWarehouseRec :=
  yandexPaginate pages

/-- `yandex.get_yandex_orders`, pages = successive responses. -/
def get_yandex_orders (pages : List (YResp YOrderRec)) : List YOrderRec :=
  yandexPaginate pages

/-- `yandex.get_yandex_offer_mappings`, pages = successive responses. -/
def get_yandex_offer_mappings (pages : List (YResp YMappingRec)) :
    List YMappingRec :=
  yandexPaginate pages

/-- `yandex.get_yandex_warehouses`: single request, warehouse list on 200,
`[]` on any failure. -/
def get_yandex_warehouses (r : ApiResp (List YWarehouseRec)) :
    List YWarehouseRec :=
  apiItems r

/-- A WB response that is a failure in the sense of the spec taxonomy
(a)-(c): transport error / raised request, non-200 status, or undecodable
body.  (A 200 with decodable but unexpectedly-shaped JSON is NOT here: the
WB client returns such a body unchanged.) -/
def WBResp.failed : WBResp → Bool
  | WBResp.exn => true
  | WBResp.resp s body => s != 200 || body == none

/-- An Ozon/Yandex single-request outcome that is a failure: raised request
or non-200 status. -/
def ApiResp.failed {α : Type} : ApiResp α → Bool
  | ApiResp.exn => true
  | ApiResp.err _ => true
  | ApiResp.ok _ => false

/-- A failed page of a cursor-paginated fetch. -/
def YResp.failed {α : Type} : YResp α → Bool
  | YResp.exn => true
  | YResp.err _ => true
  | YResp.ok _ _ => false

/-! ### Data shapers (`src/app/data_processor/`)

Each shaper receives the record list its client fetch produced (failures are
already collapsed to `[]` at the client level, as modelled above) and builds
a DataFrame.  `dfOfRows` mirrors the common tail
`df = pd.DataFrame(data); df['PA'] = params['PA']`: when `data` is empty,
`pd.DataFrame([])` has no columns and the `PA` assignment leaves a
zero-row single-column frame. -/

/-- `v.getD ''` as a cell (the shapers' `.get(key, '')` default). -/
def strCell (o : Option String) : Val := Val.str (o.getD "")

/-- A string field whose `.get` default is `None`. -/
def optStrCell : Option String → Val
  | some s => Val.str s
  | none => Val.null

/-- A numeric field whose `.get` default is `None`. -/
def numCell : Option Int → Val
  | some n => Val.num n
  | none => Val.null

/-- `pd.DataFrame(data)` for dicts with the fixed keys `cols`, followed by
`df['PA'] = pa`. -/
def dfOfRows (cols : List String) (rows : List (List Val)) (pa : String) :
    Table :=
  if rows = [] then ⟨["PA"], []⟩
  else ⟨cols ++ ["PA"], rows.map (fun r => r ++ [Val.str pa])⟩

/-- Column order of the Ozon product-info shaper. -/
def ozonInfoCols : List String := ["barcode", "offer_id", "sku", "product_id"]

/-- `ozon_get_data_tasks.get_info_df`: empty frame when the fetch produced
nothing, otherwise one row per product. -/
def ozonInfoDf (pa : String) (attributes : List OzonInfoRec) : Table :=
  if attributes = [] then Table.emptyDF
  else
    dfOfRows ozonInfoCols
      (attributes.map (fun p =>
        [strCell p.barcode, strCell p.offer_id, numCell p.sku, numCell p.id]))
      pa

/-- Column order of the Ozon orders shaper. -/
def ozonOrderCols : List String :=
  ["created_at", "order_id", "order_number", "posting_number", "name",
   "offer_id", "sku", "price", "quantity"]

/-- One output row of `process_postings`: the posting's shared fields
(`created_at` for FBO / `in_process_at` for FBS, order id and numbers)
followed by the product line's own fields. -/
def ozonOrderRow (isFBO : Bool) (posting : OzonPostingRec)
    (product : OzonProductRec) : List Val :=
  [strCell (if isFBO then posting.created_at else posting.in_process_at),
   numCell posting.order_id, strCell posting.order_number,
   strCell posting.posting_number, strCell product.name,
   strCell product.offer_id, numCell product.sku, strCell product.price,
   numCell product.quantity]

/-- `ozon_get_data_tasks.get_orders_df.process_postings`: empty frame when no
postings, otherwise one row per product line of each posting. -/
def processPostingsDf (isFBO : Bool) (pa : String)
    (postings : List OzonPostingRec) : Table :=
  if postings = [] then Table.emptyDF
  else
    dfOfRows ozonOrderCols
      (postings.flatMap (fun p => p.products.map (ozonOrderRow isFBO p)))
      pa

/-- `ozon_get_data_tasks.get_orders_df`: FBO and FBS postings shaped then
stacked with `pd.concat([fbo_df, fbs_df])` (a two-element list, which never
raises; the error arm is dead). -/
def ozonOrdersDf (pa : String) (fbo fbs : List OzonPostingRec) : Table :=
  match pdConcat [processPostingsDf true pa fbo, processPostingsDf false pa fbs] with
  | Except.ok t => t
  | Except.error _ => Table.emptyDF

/-- Column order of the Ozon stocks shaper. -/
def ozonStockCols : List String :=
  ["name", "offer_id", "sku", "available_stock_count", "warehouse_id",
   "warehouse_name", "cluster_id"]

/-- `ozon_get_data_tasks.get_stocks_df` (shaping part): empty frame when the
fetch produced nothing, otherwise one row per analytics-stocks item. -/
def ozonStocksDf (pa : String) (stocks : List OzonStockRec) : Table :=
  if stocks = [] then Table.emptyDF
  else
    dfOfRows ozonStockCols
      (stocks.map (fun i =>
        [strCell i.name, strCell i.offer_id, numCell i.sku,
         numCell i.available_stock_count, numCell i.warehouse_id,
         optStrCell i.warehouse_name, numCell i.cluster_id]))
      pa

/-- Value of key `c` in a decoded flat JSON dict. -/
def dlookup (r : List (String × Val)) (c : String) : Val :=
  match r.find? (fun kv => kv.1 == c) with
  | some kv => kv.2
  | none => Val.null

/-- `pd.DataFrame(list_of_dicts)`: columns are the union of the dict keys in
first-appearance order; a dict missing a key yields NaN in that cell. -/
def dictsToDF (recs : List (List (String × Val))) : Table :=
  let cs := unionCols (recs.map (fun r => r.map Prod.fst))
  ⟨cs, recs.map (fun r => cs.map (fun c => dlookup r c))⟩

/-- `pd.to_numeric(errors='coerce')` on a cell: numbers pass, parseable
strings parse, everything else becomes NaN. -/
def pdToNumeric : Val → Val
  | Val.num n => Val.num n
  | Val.str s =>
    match s.toInt? with
    | some n => Val.num n
    | none => Val.null
  | Val.null => Val.null

/-- `pd.to_datetime(errors='coerce')` on a cell; timestamps are represented
by their source strings, so the conversion is the identity in this model
(no claim inspects converted dates). -/
def pdToDatetime : Val → Val := fun v => v

/-- Apply `f` to every cell of column `c`, when the column exists
(`if col in df.columns`). -/
def Table.coerceCol (t : Table) (c : String) (f : Val → Val) : Table :=
  if t.cols.contains c then
    ⟨t.cols, t.rows.map (fun r =>
      t.cols.map (fun c2 =>
        if c2 == c then f (rowVal t.cols r c2) else rowVal t.cols r c2))⟩
  else t

/-- `wb_get_data_tasks.get_orders_df` (shaping part): empty frame on empty or
non-list data (a non-list 200 body is delivered to this shaper as no
records), otherwise the raw dicts as a frame, the `PA` tag, and the numeric
and date coercions in source order. -/
def wbOrdersDf (pa : String) (orders : List (List (String × Val))) : Table :=
  if orders = [] then Table.emptyDF
  else
    let df0 := dictsToDF orders
    let df1 : Table := ⟨df0.cols ++ ["PA"], df0.rows.map (fun r => r ++ [Val.str pa])⟩
    let df2 := ["totalPrice", "discountPercent", "priceWithDisc"].foldl
      (fun t c => t.coerceCol c pdToNumeric) df1
    ["date", "lastChangeDate"].foldl (fun t c => t.coerceCol c pdToDatetime) df2

/-- `wb_get_data_tasks.get_stocks_df` (shaping part). -/
def wbStocksDf (pa : String) (stocks : List (List (String × Val))) : Table :=
  if stocks = [] then Table.emptyDF
  else
    let df0 := dictsToDF stocks
    let df1 : Table := ⟨df0.cols ++ ["PA"], df0.rows.map (fun r => r ++ [Val.str pa])⟩
    let df2 := ["quantity", "inWayToClient", "inWayFromClient"].foldl
      (fun t c => t.coerceCol c pdToNumeric) df1
    ["lastChangeDate"].foldl (fun t c => t.coerceCol c pdToDatetime) df2

/-- Column order of the Yandex orders shaper. -/
def yandexOrderCols : List String :=
  ["creationDate", "order_id", "item_id", "offerId", "offerName", "price",
   "buyerPrice", "buyerPriceBeforeDiscount", "vat", "count"]

/-- One output row of the Yandex orders shaper: the order's shared fields
(`creationDate`, order id) followed by the item's own fields. -/
def yandexOrderRow (o : YOrderRec) (it : YOrderItemRec) : List Val :=
  [strCell o.creationDate, numCell o.id, numCell it.id, strCell it.offerId,
   strCell it.offerName, numCell it.price, numCell it.buyerPrice,
   numCell it.buyerPriceBeforeDiscount, strCell it.vat, numCell it.count]

/-- `yandex_get_data_tasks.get_orders_df` (shaping part): one row per item of
each order. -/
def yandexOrdersDf (pa : String) (orders : List YOrderRec) : Table :=
  if orders = [] then Table.emptyDF
  else
    dfOfRows yandexOrderCols
      (orders.flatMap (fun o => o.items.map (yandexOrderRow o)))
      pa

/-- The `offer.get('offer', {})` default. -/
def emptyYOffer : YOfferRec := ⟨none, [], none, none, none⟩

/-- One output row of the Yandex info shaper, given the first barcode. -/
def yandexInfoRow (offer : YOfferRec) (b : String) : List Val :=
  [strCell offer.offerId, Val.str b, strCell offer.name, strCell offer.vendor,
   strCell offer.vendorCode]

/-- The row-building loop of the Yandex info shaper;
`offer.get('barcodes', [])[0]` raises `IndexError` on an offer without
barcodes, aborting the whole transform (`none`). -/
def yandexInfoRows : List YMappingRec → Option (List (List Val))
  | [] => some []
  | m :: rest =>
    let offer := m.offer.getD emptyYOffer
    match offer.barcodes.head? with
    | none => none
    | some b => (yandexInfoRows rest).map (fun rs => yandexInfoRow offer b :: rs)

/-- `yandex_get_data_tasks.get_info_df` (shaping part): empty frame when the
fetch produced nothing or when the transform raised (caught by the shaper's
`except`), otherwise one row per mapping. -/
def yandexInfoDf (pa : String) (mappings : List YMappingRec) : Table :=
  if mappings = [] then Table.emptyDF
  else
    match yandexInfoRows mappings with
    | none => Table.emptyDF
    | some rows =>
      dfOfRows ["offerId", "barcode", "name", "vendor", "vendorCode"] rows pa

/-- Column order of the Yandex stocks shaper. -/
def yandexStockCols : List String :=
  ["warehouseId", "offerId", "updatedAt", "type", "count"]

/-- One output row of the Yandex stocks shaper; the `warehouseId` default is
the empty string (`warehouse.get('warehouseId', '')`). -/
def yandexStockRow (w : YStockWarehouseRec) (o : YStockOfferRec)
    (s : YStockEntryRec) : List Val :=
  [(match w.warehouseId with
    | some n => Val.num n
    | none => Val.str ""),
   strCell o.offerId, strCell o.updatedAt, strCell s.type, numCell s.count]

/-- `yandex_get_data_tasks.get_stocks_df` (shaping part): one row per stock
entry per offer per warehouse block. -/
def yandexStocksDf (pa : String) (stocks : List YStockWarehouseRec) : Table :=
  if stocks = [] then Table.emptyDF
  else
    dfOfRows yandexStockCols
      (stocks.flatMap (fun w =>
        w.offers.flatMap (fun o => o.stocks.map (yandexStockRow w o))))
      pa

/-- `yandex_get_data_tasks.get_warehouses_df` (shaping part): one row per
warehouse. -/
def yandexWarehousesDf (pa : String) (ws : List YWarehouseRec) : Table :=
  if ws = [] then Table.emptyDF
  else
    dfOfRows ["warehouseId", "name"]
      (ws.map (fun w => [numCell w.id, strCell w.name]))
      pa

/-! ### Aggregator pipeline (`src/app/main.py`) -/

/-- One configured marketplace account (credentials elided; `pa` is the
logical account label). -/
structure Account where
  pa : String
deriving DecidableEq, Repr

/-- The three per-marketplace account lists
(`WB/OZON/YANDEX_API_CONF_LIST_MAP`). -/
structure Config where
  wb : List Account
  ozon : List Account
  yandex : List Account
deriving DecidableEq, Repr

/-- The upstream world of one pipeline run: for each account label, the
record list each fetch delivers (client-level failures already collapsed to
`[]`).  The Ozon stocks fetch also receives the SKU filter list. -/
structure PipelineEnv where
  wbOrders : String → List (List (String × Val))
  wbStocks : String → List (List (String × Val))
  ozonInfo : String → List OzonInfoRec
  ozonFbo : String → List OzonPostingRec
  ozonFbs : String → List OzonPostingRec
  ozonStocks : String → List String → List OzonStockRec
  yandexInfo : String → List YMappingRec
  yandexOrders : String → List YOrderRec
  yandexStocks : String → List YStockWarehouseRec
  yandexWarehouses : String → List YWarehouseRec

/-- The dict `get_additional_data` returns. -/
structure AdditionalData where
  ozon_attributes_info : Table
  yandex_attributes_info : Table
  yandex_warehouses : Table
deriving DecidableEq, Repr

/-- `main.get_additional_data`: concatenate-and-dedup the per-account info
frames of Ozon and Yandex and the Yandex warehouse frames, then select the
mapping columns.  Every step keeps the source's raising order:
the three `pd.concat` calls (each a `ValueError` on an empty account list),
then the two column selections (each a `KeyError` when the concatenated
frame lacks the columns). -/
def getAdditionalData (cfg : Config) (env : PipelineEnv) :
    Except String AdditionalData := do
  let ozonCat ← pdConcat (cfg.ozon.map (fun a => ozonInfoDf a.pa (env.ozonInfo a.pa)))
  let ozonDf := ozonCat.drop_duplicates
  let yCat ← pdConcat (cfg.yandex.map (fun a => yandexInfoDf a.pa (env.yandexInfo a.pa)))
  let yDf := yCat.drop_duplicates
  let wCat ← pdConcat (cfg.yandex.map (fun a => yandexWarehousesDf a.pa (env.yandexWarehouses a.pa)))
  let wDf := wCat.drop_duplicates
  let ozonSel ← ozonDf.select ["barcode", "sku"]
  let ySel ← yDf.select ["offerId", "barcode"]
  Except.ok ⟨ozonSel, ySel, wDf⟩

/-- The dict `get_orders` returns. -/
structure OrdersData where
  wb_orders : Table
  ozon_orders : Table
  yandex_orders : Table
deriving DecidableEq, Repr

/-- `main.get_orders`: per-account frames concatenated per marketplace; the
Ozon and Yandex frames are then left-joined against their identity mappings
(`on='sku'` resp. `on='offerId'`, `how='left'`). -/
def getOrders (cfg : Config) (env : PipelineEnv) (ad : AdditionalData) :
    Except String OrdersData := do
  let wbCat ← pdConcat (cfg.wb.map (fun a => wbOrdersDf a.pa (env.wbOrders a.pa)))
  let ozonCat ← pdConcat (cfg.ozon.map (fun a =>
    ozonOrdersDf a.pa (env.ozonFbo a.pa) (env.ozonFbs a.pa)))
  let ozonMerged ← ozonCat.merge ad.ozon_attributes_info "sku"
  let yCat ← pdConcat (cfg.yandex.map (fun a => yandexOrdersDf a.pa (env.yandexOrders a.pa)))
  let yMerged ← yCat.merge ad.yandex_attributes_info "offerId"
  Except.ok ⟨wbCat, ozonMerged, yMerged⟩

/-- The dict `get_stocks` returns. -/
structure StocksData where
  wb_stocks : Table
  ozon_stocks : Table
  yandex_stocks : Table
deriving DecidableEq, Repr

/-- `.astype('str')` on a cell (`NaN` prints as `'nan'`). -/
def valToPyStr : Val → String
  | Val.null => "nan"
  | Val.num n => toString n
  | Val.str s => s

/-- `main.get_stocks`: WB frames concatenated; the Ozon stocks fetch is fed
the SKU list of the Ozon mapping table; Ozon and Yandex stock frames are
left-joined against the identity mappings; finally the Yandex rows are
restricted to `warehouseId`s occurring in this run's Yandex warehouse list
(`isin(...unique())`). -/
def getStocks (cfg : Config) (env : PipelineEnv) (ad : AdditionalData) :
    Except String StocksData := do
  let wbCat ← pdConcat (cfg.wb.map (fun a => wbStocksDf a.pa (env.wbStocks a.pa)))
  let skuVals ← ad.ozon_attributes_info.colValues "sku"
  let ozonSkus := skuVals.map valToPyStr
  let ozonCat ← pdConcat (cfg.ozon.map (fun a =>
    ozonStocksDf a.pa (env.ozonStocks a.pa ozonSkus)))
  let ozonMerged ← ozonCat.merge ad.ozon_attributes_info "sku"
  let yCat ← pdConcat (cfg.yandex.map (fun a => yandexStocksDf a.pa (env.yandexStocks a.pa)))
  let yMerged ← yCat.merge ad.yandex_attributes_info "offerId"
  let whVals ← ad.yandex_warehouses.colValues "warehouseId"
  let yFiltered ← yMerged.filterIsin "warehouseId" (dedupKeepFirst whVals)
  Except.ok ⟨wbCat, ozonMerged, yFiltered⟩

/-- The six sheets of the exported workbook, in writer order. -/
structure Report where
  wb_orders : Table
  ozon_orders : Table
  yandex_orders : Table
  wb_stocks : Table
  ozon_stocks : Table
  yandex_stocks : Table
deriving DecidableEq, Repr

/-- `main.generate_excel_file`: the three stages in sequence, then the six
sheets (the xlsxwriter serialization itself is out of scope). -/
def generateExcelFile (cfg : Config) (env : PipelineEnv) :
    Except String Report := do
  let ad ← getAdditionalData cfg env
  let od ← getOrders cfg env ad
  let sd ← getStocks cfg env ad
  Except.ok ⟨od.wb_orders, od.ozon_orders, od.yandex_orders,
    sd.wb_stocks, sd.ozon_stocks, sd.yandex_stocks⟩

/-- What the endpoint hands to the HTTP layer. -/
inductive DownloadResult where
  | file : Report → DownloadResult
  | message : String → DownloadResult
deriving DecidableEq, Repr

/-- The generic failure text of the endpoint's `except` handler. -/
def genericErrorMessage : String := "ОШИБКА. Что-то пошло не так. Повторите позже"

/-- `main.download_report`: the file on success, the generic message when any
exception escapes the pipeline. -/
def download_report (cfg : Config) (env : PipelineEnv) : DownloadResult :=
  match generateExcelFile cfg env with
  | Except.ok r => DownloadResult.file r
  | Except.error _ => DownloadResult.message genericErrorMessage

/-- The items one page response contributes (a failed page contributes
nothing). -/
def pageItems {α : Type} : YResp α → List α
  | YResp.ok items _ => items
  | YResp.exn => []
  | YResp.err _ => []

/-! ### Concrete inputs for witnesses and counterexamples -/

/-- A one-row orders table with key column `sku`. -/
def c1Left : Table := ⟨["sku", "qty"], [[Val.num 1, Val.num 5]]⟩

/-- A mapping table whose key `sku = 1` occurs twice (possible in the
pipeline: `drop_duplicates` runs before the `[['barcode', 'sku']]`
selection, so two accounts mapping one sku to different barcodes both
survive). -/
def c1Right : Table :=
  ⟨["sku", "barcode"], [[Val.num 1, Val.str "a"], [Val.num 1, Val.str "b"]]⟩

/-- The left-join of `c1Left` with the duplicate-key `c1Right` on `sku`:
the single left row appears once per matching right row. -/
def c1DupMerged : Table :=
  ⟨["sku", "qty", "barcode"],
   [[Val.num 1, Val.num 5, Val.str "a"], [Val.num 1, Val.num 5, Val.str "b"]]⟩

/-- A two-row left table for the amended-claim witness. -/
def c1WLeft : Table :=
  ⟨["sku", "qty"], [[Val.num 1, Val.num 5], [Val.num 3, Val.num 7]]⟩

/-- A mapping table with pairwise-distinct keys. -/
def c1WRight : Table :=
  ⟨["sku", "barcode"], [[Val.num 1, Val.str "a"], [Val.num 2, Val.str "b"]]⟩

/-- The left-join of `c1WLeft` with `c1WRight` on `sku`. -/
def c1WMerged : Table :=
  ⟨["sku", "qty", "barcode"],
   [[Val.num 1, Val.num 5, Val.str "a"], [Val.num 3, Val.num 7, Val.null]]⟩

/-- A configuration whose Ozon account list is empty. -/
def c2Cfg : Config := ⟨[⟨"wbA"⟩], [], [⟨"yaA"⟩]⟩

/-- An upstream world where every fetch yields nothing. -/
def emptyEnv : PipelineEnv :=
  ⟨fun _ => [], fun _ => [], fun _ => [], fun _ => [], fun _ => [],
   fun _ _ => [], fun _ => [], fun _ => [], fun _ => [], fun _ => []⟩

/-- One Yandex order item for the shaper witness. -/
def c8Item : YOrderItemRec :=
  ⟨some 701, some "Y1", some "nm", some 5, some 5, some 6, some "V", some 2⟩

/-- One Yandex order with a single item. -/
def c8Order : YOrderRec := ⟨some "d1", some 77, [c8Item]⟩

/-- A one-order input for the Yandex shaper witness. -/
def c8Orders : List YOrderRec := [c8Order]

/-- Two Ozon postings: two product lines, then zero product lines. -/
def c8Postings : List OzonPostingRec :=
  [⟨some "t1", none, some 5, some "N5", some "P5",
    [⟨some "a", some "OF1", some 11, some "10", some 1⟩,
     ⟨some "b", some "OF2", some 22, some "20", some 2⟩]⟩,
   ⟨some "t2", none, some 6, some "N6", some "P6", []⟩]

/-- One account per marketplace. -/
def c4Cfg : Config := ⟨[⟨"wbA"⟩], [⟨"ozA"⟩], [⟨"yaA"⟩]⟩

/-- A populated upstream world: two Yandex stock warehouses (555 and 556)
but only warehouse 555 in the warehouse list, so the filter must drop the
556 rows. -/
def c4Env : PipelineEnv where
  wbOrders := fun _ => [[("srid", Val.str "w1"), ("totalPrice", Val.str "100")]]
  wbStocks := fun _ => [[("barcode", Val.str "b1"), ("quantity", Val.num 3)]]
  ozonInfo := fun _ =>
    [⟨some "B1", some "OF1", some 11, some 1⟩,
     ⟨some "B2", some "OF2", some 22, some 2⟩]
  ozonFbo := fun _ =>
    [⟨some "2024-01-01", none, some 5, some "N5", some "P5",
      [⟨some "prod", some "OF1", some 11, some "10", some 1⟩,
       ⟨some "prod2", some "OF2", some 22, some "20", some 2⟩]⟩]
  ozonFbs := fun _ =>
    [⟨none, some "2024-01-03", some 6, some "N6", some "P6",
      [⟨some "prod3", some "OF9", some 99, some "30", some 3⟩]⟩]
  ozonStocks := fun _ _ =>
    [⟨some "prod", some "OF1", some 11, some 7, some 100, some "WH", some 1⟩]
  yandexInfo := fun _ => [⟨some ⟨some "Y1", ["YB1"], some "n", some "v", some "vc"⟩⟩]
  yandexOrders := fun _ =>
    [⟨some "2024-01-02", some 77,
      [⟨some 701, some "Y1", some "nm", some 5, some 5, some 6, some "VAT", some 2⟩]⟩]
  yandexStocks := fun _ =>
    [⟨some 555, [⟨some "Y1", some "2024", [⟨some "FIT", some 4⟩]⟩]⟩,
     ⟨some 556, [⟨some "Y2", some "2024", [⟨some "FIT", some 9⟩]⟩]⟩]
  yandexWarehouses := fun _ => [⟨some 555, some "wh555"⟩]

/-- `get_additional_data` on `c4Cfg`/`c4Env` (checked by `rfl` below). -/
def c4Ad : AdditionalData :=
  ⟨⟨["barcode", "sku"], [[Val.str "B1", Val.num 11], [Val.str "B2", Val.num 22]]⟩,
   ⟨["offerId", "barcode"], [[Val.str "Y1", Val.str "YB1"]]⟩,
   ⟨["warehouseId", "name", "PA"], [[Val.num 555, Val.str "wh555", Val.str "yaA"]]⟩⟩

/-- `get_stocks` on `c4Cfg`/`c4Env`/`c4Ad` (checked by `rfl` below). -/
def c4Out : StocksData :=
  ⟨⟨["barcode", "quantity", "PA"], [[Val.str "b1", Val.num 3, Val.str "wbA"]]⟩,
   ⟨["name", "offer_id", "sku", "available_stock_count", "warehouse_id",
     "warehouse_name", "cluster_id", "PA", "barcode"],
    [[Val.str "prod", Val.str "OF1", Val.num 11, Val.num 7, Val.num 100,
      Val.str "WH", Val.num 1, Val.str "ozA", Val.str "B1"]]⟩,
   ⟨["warehouseId", "offerId", "updatedAt", "type", "count", "PA", "barcode"],
    [[Val.num 555, Val.str "Y1", Val.str "2024", Val.str "FIT", Val.num 4,
      Val.str "yaA", Val.str "YB1"]]⟩⟩

/-- 250 SKUs: enough for three batches (100 + 100 + 50). -/
def c6Skus : List String := List.replicate 250 "s"

/-- An upstream that answers every analytics-stocks batch with no items. -/
def c6Env : List String → ApiResp (List OzonStockRec) := fun _ => ApiResp.ok []

/-- An upstream that answers every FBO window request with no postings. -/
def c5Env : Nat × Nat → ApiResp (List OzonPostingRec) := fun _ => ApiResp.ok []

/-- Three Yandex order pages: a token page, a token-less page, and a page
that must never be consumed. -/
def c7Pages : List (YResp YOrderRec) :=
  [YResp.ok [c8Order] (some "t1"), YResp.ok [] none,
   YResp.ok [c8Order] (some "t2")]

/-- One FBS posting for the single-page witness. -/
def c10Posting : OzonPostingRec :=
  ⟨none, some "2024-01-03", some 6, some "N6", some "P6", []⟩

/-- An upstream that returns one posting when the request's limit allows
it (so it honours the per-request cap). -/
def c10Env : FbsPayload → ApiResp (List OzonPostingRec) := fun q =>
  if q.limit = 0 then ApiResp.ok [] else ApiResp.ok [c10Posting]

/-! ### Helper lemmas -/

/-- Over a list whose images under `f` are pairwise distinct, at most one
element maps to any given value. -/
theorem length_filter_key_le_one {α β : Type} [DecidableEq β] (f : α → β)
    (v : β) :
    ∀ l : List α, (l.map f).Nodup → (l.filter (fun x => f x == v)).length ≤ 1 := by
  intro l
  induction l with
  | nil => intro _; simp
  | cons x rest ih =>
    intro hnd
    simp only [List.map_cons, List.nodup_cons] at hnd
    rw [List.filter_cons]
    by_cases hx : f x = v
    · have hrest : rest.filter (fun y => f y == v) = [] := by
        rw [List.filter_eq_nil_iff]
        intro a ha hpa
        exact hnd.1 (List.mem_map.mpr ⟨a, ha, by
          rw [beq_iff_eq] at hpa
          rw [hpa, hx]⟩)
      simp [hx, hrest]
    · rw [if_neg (by simp [hx])]
      exact ih hnd.2

/-- A flatMap whose pieces all have length one preserves the length. -/
theorem length_flatMap_of_length_one {α β : Type} (f : α → List β)
    (l : List α) (h : ∀ a ∈ l, (f a).length = 1) :
    (l.flatMap f).length = l.length := by
  induction l with
  | nil => simp
  | cons x rest ih =>
    simp only [List.flatMap_cons, List.length_append, List.length_cons]
    rw [h x (by simp), ih (fun a ha => h a (by simp [ha]))]
    omega

/-- When the mapping side's keys are pairwise distinct, each left row
produces exactly one merged row. -/
theorem mergeRow_length_eq_one (lcols rcols enrich : List String)
    (rrows : List (List Val)) (key : String) (lr : List Val)
    (hnd : (rrows.map (fun rr => rowVal rcols rr key)).Nodup) :
    (mergeRow lcols rcols enrich rrows key lr).length = 1 := by
  unfold mergeRow
  by_cases hms : (rrows.filter
      (fun rr => rowVal rcols rr key == rowVal lcols lr key)).isEmpty
  · simp [hms]
  · simp only [hms, Bool.false_eq_true, if_false, List.length_map]
    have h1 : (rrows.filter
        (fun rr => rowVal rcols rr key == rowVal lcols lr key)).length ≤ 1 :=
      length_filter_key_le_one (fun rr => rowVal rcols rr key)
        (rowVal lcols lr key) rrows hnd
    have h2 : (rrows.filter
        (fun rr => rowVal rcols rr key == rowVal lcols lr key)).length ≠ 0 := by
      intro h0
      exact hms (by simpa [List.isEmpty_iff] using List.length_eq_zero.mp h0)
    omega

/-! ### Claim theorems -/

/-- In general each left row produces one merged row per matching right
row, and one null-padded row when nothing matches. -/
theorem mergeRow_length_max (lcols rcols enrich : List String)
    (rrows : List (List Val)) (key : String) (lr : List Val) :
    (mergeRow lcols rcols enrich rrows key lr).length
      = max 1 (rrows.filter
          (fun rr => rowVal rcols rr key == rowVal lcols lr key)).length := by
  unfold mergeRow
  by_cases hms : (rrows.filter
      (fun rr => rowVal rcols rr key == rowVal lcols lr key)).isEmpty
  · rw [if_pos hms]
    have h0 : (rrows.filter
        (fun rr => rowVal rcols rr key == rowVal lcols lr key)) = [] :=
      List.isEmpty_iff.mp hms
    rw [h0]
    rfl
  · rw [if_neg hms]
    rw [List.length_map]
    have h0 : (rrows.filter
        (fun rr => rowVal rcols rr key == rowVal lcols lr key)).length ≠ 0 := by
      intro h1
      exact hms (by simpa [List.isEmpty_iff] using List.length_eq_zero.mp h1)
    omega

/-- C1, counterexample: the left join does NOT always preserve the left
table's row count — a mapping table whose key occurs twice duplicates the
matching left row.  `c1Left` has one row; the merge has two. -/
theorem c1_counterexample :
    c1Left.merge c1Right "sku" =
      Except.ok ⟨["sku", "qty", "barcode"],
        [[Val.num 1, Val.num 5, Val.str "a"],
         [Val.num 1, Val.num 5, Val.str "b"]]⟩ ∧
    c1Left.rows.length = 1 ∧ (2 : Nat) ≠ 1 := ⟨rfl, rfl, by decide⟩

/-- C1 (amended): for the aggregator's left joins, unconditionally, the
merged table has one row per (left row, matching right row) pair — with a
single null-padded row for an unmatched left row — so every left row
extends to at least one merged row (no left row is dropped) and an
unmatched left row appears padded with nulls in the enrichment columns;
when the identity-mapping table's key values are pairwise distinct this
row count collapses to exactly the left table's row count. -/
theorem c1_left_join_amended (l r : Table) (key : String) (t : Table)
    (hm : l.merge r key = Except.ok t) :
    t.rows.length
        = (l.rows.map (fun lr => max 1 (r.rows.filter
            (fun rr => rowVal r.cols rr key == rowVal l.cols lr key)).length)).sum ∧
    ((r.rows.map (fun rr => rowVal r.cols rr key)).Nodup →
      t.rows.length = l.rows.length) ∧
    ∀ lr ∈ l.rows,
      (∃ ext, lr ++ ext ∈ t.rows) ∧
      ((∀ rr ∈ r.rows, rowVal r.cols rr key ≠ rowVal l.cols lr key) →
        lr ++ (r.cols.filter (fun c => c != key)).map (fun _ => Val.null)
          ∈ t.rows) := by
  unfold Table.merge at hm
  by_cases hc : (l.cols.contains key && r.cols.contains key) = true
  · rw [if_pos hc] at hm
    have ht := (Except.ok.inj hm).symm
    subst ht
    refine ⟨?_, ?_, ?_⟩
    · rw [List.length_flatMap]
      congr 1
      apply List.map_congr_left
      intro lr _
      exact mergeRow_length_max l.cols r.cols _ r.rows key lr
    · intro hnd
      exact length_flatMap_of_length_one _ _ (fun lr _ =>
        mergeRow_length_eq_one l.cols r.cols _ r.rows key lr hnd)
    · intro lr hlr
      constructor
      · by_cases hms : (r.rows.filter
            (fun rr => rowVal r.cols rr key == rowVal l.cols lr key)) = []
        · exact ⟨(r.cols.filter (fun c => c != key)).map (fun _ => Val.null),
            List.mem_flatMap.mpr ⟨lr, hlr, by simp [mergeRow, hms]⟩⟩
        · obtain ⟨rr0, hrr0⟩ := List.exists_mem_of_ne_nil _ hms
          have hie : (r.rows.filter
              (fun rr => rowVal r.cols rr key == rowVal l.cols lr key)).isEmpty
                = false := by
            cases h : (r.rows.filter
                (fun rr => rowVal r.cols rr key == rowVal l.cols lr key)).isEmpty with
            | false => rfl
            | true => exact absurd (List.isEmpty_iff.mp h) hms
          refine ⟨(r.cols.filter (fun c => c != key)).map
              (fun c => rowVal r.cols rr0 c),
            List.mem_flatMap.mpr ⟨lr, hlr, ?_⟩⟩
          simp only [mergeRow, hie, Bool.false_eq_true, if_false]
          exact List.mem_map.mpr ⟨rr0, hrr0, rfl⟩
      · intro hno
        have hms : (r.rows.filter
            (fun rr => rowVal r.cols rr key == rowVal l.cols lr key)) = [] :=
          List.filter_eq_nil_iff.mpr (fun rr hrr => by simp [hno rr hrr])
        exact List.mem_flatMap.mpr ⟨lr, hlr, by simp [mergeRow, hms]⟩
  · rw [if_neg hc] at hm
    exact absurd hm (by simp)

/-- C1, witness: the amended theorem at two concrete merges — distinct
mapping keys (`c1WRight`) preserve the left row count, and the duplicated
key of `c1Right` yields one merged row per match. -/
theorem c1_left_join_amended_witness :
    c1WMerged.rows.length = c1WLeft.rows.length ∧
    c1DupMerged.rows.length
      = (c1Left.rows.map (fun lr => max 1 (c1Right.rows.filter
          (fun rr => rowVal c1Right.cols rr "sku"
            == rowVal c1Left.cols lr "sku")).length)).sum := by
  have hW := c1_left_join_amended c1WLeft c1WRight "sku" c1WMerged rfl
  have hD := c1_left_join_amended c1Left c1Right "sku" c1DupMerged rfl
  exact ⟨hW.2.1 (by decide), hD.1⟩

/-- C2, counterexample: with an empty Ozon account list the pipeline does
not complete — `pd.concat` of the zero per-account info frames raises
`ValueError` inside `get_additional_data`. -/
theorem c2_counterexample :
    generateExcelFile c2Cfg emptyEnv =
      Except.error "ValueError: No objects to concatenate" := rfl

/-- C2 (amended): for every marketplace whose configured account list is
empty, the pipeline RAISES (at the `pd.concat` over that marketplace's
per-account frames) instead of completing with an empty contribution, and
the endpoint returns the generic error message. -/
theorem c2_empty_accounts_amended (cfg : Config) (env : PipelineEnv)
    (h : cfg.wb = [] ∨ cfg.ozon = [] ∨ cfg.yandex = []) :
    (generateExcelFile cfg env).isOk = false ∧
    download_report cfg env = DownloadResult.message genericErrorMessage := by
  have hmain : (generateExcelFile cfg env).isOk = false := by
    rcases h with hwb | hoz | hya
    · unfold generateExcelFile
      cases had : getAdditionalData cfg env with
      | error e => rfl
      | ok ad =>
        unfold getOrders
        rw [hwb]
        rfl
    · unfold generateExcelFile getAdditionalData
      rw [hoz]
      rfl
    · unfold generateExcelFile getAdditionalData
      rw [hya]
      cases hpc : pdConcat (cfg.ozon.map (fun a => ozonInfoDf a.pa (env.ozonInfo a.pa))) with
      | error e => rfl
      | ok t => rfl
  refine ⟨hmain, ?_⟩
  unfold download_report
  cases hge : generateExcelFile cfg env with
  | ok r => rw [hge] at hmain; simp [Except.isOk, Except.toBool] at hmain
  | error e => rfl

/-- C2, witness: the amended theorem at the concrete empty-Ozon
configuration. -/
theorem c2_empty_accounts_amended_witness :
    (generateExcelFile c2Cfg emptyEnv).isOk = false ∧
    download_report c2Cfg emptyEnv = DownloadResult.message genericErrorMessage :=
  c2_empty_accounts_amended c2Cfg emptyEnv (Or.inr (Or.inl rfl))

/-- `dfOfRows` keeps the number of data rows. -/
theorem dfOfRows_length (cols : List String) (rows : List (List Val))
    (pa : String) : (dfOfRows cols rows pa).rows.length = rows.length := by
  unfold dfOfRows
  by_cases h : rows = []
  · simp [h]
  · rw [if_neg h]
    simp

/-- Every data row appears in `dfOfRows`, tagged with the account label. -/
theorem dfOfRows_mem (cols : List String) (rows : List (List Val))
    (pa : String) (r : List Val) (hr : r ∈ rows) :
    r ++ [Val.str pa] ∈ (dfOfRows cols rows pa).rows := by
  unfold dfOfRows
  rw [if_neg (List.ne_nil_of_mem hr)]
  exact List.mem_map_of_mem _ hr

/-- The length of an explode-style flatMap is the sum of the per-record item
counts. -/
theorem length_flatMap_map {α β γ : Type} (recs : List α) (items : α → List β)
    (mkRow : α → β → γ) :
    (recs.flatMap (fun a => (items a).map (mkRow a))).length
      = (recs.map (fun a => (items a).length)).sum := by
  rw [List.length_flatMap]
  congr 1
  exact List.map_congr_left (fun a _ => by simp)

/-- C8: the order shapers explode line items — a posting/order with N
line items yields exactly N rows (table row count = sum of per-record item
counts), and for every record and every one of its items the row made of
the parent's shared fields and the item's own fields (plus the account tag)
is present in the shaped table. -/
theorem c8_order_shapers_explode (isFBO : Bool) (pa : String)
    (postings : List OzonPostingRec) (orders : List YOrderRec) :
    (processPostingsDf isFBO pa postings).rows.length
        = (postings.map (fun p => p.products.length)).sum ∧
    (∀ p ∈ postings, ∀ pr ∈ p.products,
      ozonOrderRow isFBO p pr ++ [Val.str pa]
        ∈ (processPostingsDf isFBO pa postings).rows) ∧
    (yandexOrdersDf pa orders).rows.length
        = (orders.map (fun o => o.items.length)).sum ∧
    (∀ o ∈ orders, ∀ it ∈ o.items,
      yandexOrderRow o it ++ [Val.str pa] ∈ (yandexOrdersDf pa orders).rows) := by
  refine ⟨?_, ?_, ?_, ?_⟩
  · unfold processPostingsDf
    by_cases hp : postings = []
    · simp [hp, Table.emptyDF]
    · rw [if_neg hp, dfOfRows_length]
      exact length_flatMap_map postings (fun p => p.products) (ozonOrderRow isFBO)
  · intro p hp pr hpr
    unfold processPostingsDf
    rw [if_neg (List.ne_nil_of_mem hp)]
    exact dfOfRows_mem _ _ _ _
      (List.mem_flatMap.mpr ⟨p, hp, List.mem_map_of_mem _ hpr⟩)
  · unfold yandexOrdersDf
    by_cases ho : orders = []
    · simp [ho, Table.emptyDF]
    · rw [if_neg ho, dfOfRows_length]
      exact length_flatMap_map orders (fun o => o.items) yandexOrderRow
  · intro o ho it hit
    unfold yandexOrdersDf
    rw [if_neg (List.ne_nil_of_mem ho)]
    exact dfOfRows_mem _ _ _ _
      (List.mem_flatMap.mpr ⟨o, ho, List.mem_map_of_mem _ hit⟩)

/-- C8, witness: two Ozon postings with 2 and 0 product lines yield 2 rows;
one Yandex order with one item yields 1 row containing the exploded row. -/
theorem c8_order_shapers_explode_witness :
    (processPostingsDf true "ozA" c8Postings).rows.length = 2 ∧
    (yandexOrdersDf "yaA" c8Orders).rows.length = 1 ∧
    yandexOrderRow c8Order c8Item ++ [Val.str "yaA"]
      ∈ (yandexOrdersDf "yaA" c8Orders).rows := by
  have h1 := c8_order_shapers_explode true "ozA" c8Postings c8Orders
  have h2 := c8_order_shapers_explode true "yaA" c8Postings c8Orders
  refine ⟨h1.1.trans (by decide), h2.2.2.1.trans (by decide), ?_⟩
  exact h2.2.2.2 c8Order (by simp [c8Orders]) c8Item (by simp [c8Order])

/-- Inversion of a successful `Except` bind. -/
theorem except_bind_ok {ε α β : Type} (e : Except ε α) (f : α → Except ε β)
    (v : β) (h : (e >>= f) = Except.ok v) :
    ∃ a, e = Except.ok a ∧ f a = Except.ok v := by
  cases e with
  | ok a => exact ⟨a, rfl, h⟩
  | error err => exact Except.noConfusion h

/-- Anything `dedupAux` emits comes from its second argument. -/
theorem mem_of_mem_dedupAux {α : Type} [DecidableEq α] :
    ∀ (seen l : List α) (a : α), a ∈ dedupAux seen l → a ∈ l := by
  intro seen l
  induction l generalizing seen with
  | nil => intro a ha; simp [dedupAux] at ha
  | cons x rest ih =>
    intro a ha
    unfold dedupAux at ha
    by_cases hx : x ∈ seen
    · rw [if_pos hx] at ha
      exact List.mem_cons_of_mem _ (ih seen a ha)
    · rw [if_neg hx] at ha
      rcases List.mem_cons.mp ha with h1 | h2
      · exact h1 ▸ List.mem_cons_self _ _
      · exact List.mem_cons_of_mem _ (ih (x :: seen) a h2)

/-- Anything `dedupKeepFirst` keeps was in the input. -/
theorem mem_of_mem_dedupKeepFirst {α : Type} [DecidableEq α] (l : List α)
    (a : α) (h : a ∈ dedupKeepFirst l) : a ∈ l :=
  mem_of_mem_dedupAux [] l a h

/-- Inversion of a successful `filterIsin`. -/
theorem filterIsin_ok (t : Table) (c : String) (vals : List Val) (u : Table)
    (h : t.filterIsin c vals = Except.ok u) :
    u.cols = t.cols ∧
    u.rows = t.rows.filter (fun r => vals.contains (rowVal t.cols r c)) := by
  unfold Table.filterIsin at h
  split at h
  · cases Except.ok.inj h
    exact ⟨rfl, rfl⟩
  · exact Except.noConfusion h

/-- C4: every row of the final Yandex stocks table carries a `warehouseId`
that occurs in the warehouse list (`yandex_warehouses`) of the additional
data consumed by that same `get_stocks` run — rows with any other warehouse
id are filtered out. -/
theorem c4_yandex_stocks_warehouse_scope (cfg : Config) (env : PipelineEnv)
    (ad : AdditionalData) (out : StocksData)
    (hs : getStocks cfg env ad = Except.ok out) :
    ∃ ws, ad.yandex_warehouses.colValues "warehouseId" = Except.ok ws ∧
      ∀ row ∈ out.yandex_stocks.rows,
        rowVal out.yandex_stocks.cols row "warehouseId" ∈ ws := by
  unfold getStocks at hs
  obtain ⟨wbCat, h1, hs⟩ := except_bind_ok _ _ _ hs
  obtain ⟨skuVals, h2, hs⟩ := except_bind_ok _ _ _ hs
  obtain ⟨ozonCat, h3, hs⟩ := except_bind_ok _ _ _ hs
  obtain ⟨ozonMerged, h4, hs⟩ := except_bind_ok _ _ _ hs
  obtain ⟨yCat, h5, hs⟩ := except_bind_ok _ _ _ hs
  obtain ⟨yMerged, h6, hs⟩ := except_bind_ok _ _ _ hs
  obtain ⟨whVals, h7, hs⟩ := except_bind_ok _ _ _ hs
  obtain ⟨yFiltered, h8, hs⟩ := except_bind_ok _ _ _ hs
  cases Except.ok.inj hs
  refine ⟨whVals, h7, ?_⟩
  intro row hrow
  obtain ⟨hcols, hrows⟩ := filterIsin_ok _ _ _ _ h8
  have hrow2 : row ∈ yFiltered.rows := hrow
  rw [hrows] at hrow2
  have hpred := (List.mem_filter.mp hrow2).2
  show rowVal yFiltered.cols row "warehouseId" ∈ whVals
  rw [hcols]
  exact mem_of_mem_dedupKeepFirst _ _ (List.elem_iff.mp hpred)

/-- C4, witness: the theorem at the concrete run `c4Cfg`/`c4Env`; the
warehouse-556 stock rows are indeed absent from the final table. -/
theorem c4_yandex_stocks_warehouse_scope_witness :
    ∃ ws, c4Ad.yandex_warehouses.colValues "warehouseId" = Except.ok ws ∧
      ∀ row ∈ c4Out.yandex_stocks.rows,
        rowVal c4Out.yandex_stocks.cols row "warehouseId" ∈ ws :=
  c4_yandex_stocks_warehouse_scope c4Cfg c4Env c4Ad c4Out rfl

/-- Folding `addCols` over all-empty column lists keeps the accumulator. -/
theorem foldl_addCols_nil (acc : List String) :
    ∀ ls : List (List String), (∀ cs ∈ ls, cs = []) → ls.foldl addCols acc = acc := by
  intro ls
  induction ls generalizing acc with
  | nil => intro _; rfl
  | cons cs rest ih =>
    intro h
    simp only [List.foldl_cons]
    rw [h cs (by simp), show addCols acc [] = acc by simp [addCols]]
    exact ih acc (fun c hc => h c (by simp [hc]))

/-- Concatenating a non-empty list of column-less empty frames yields the
column-less empty frame (`pd.concat` of `pd.DataFrame()`s). -/
theorem pdConcat_all_empty (ts : List Table) (hne : ts ≠ [])
    (h : ∀ t ∈ ts, t = Table.emptyDF) : pdConcat ts = Except.ok ⟨[], []⟩ := by
  unfold pdConcat
  rw [if_neg (by simpa [List.isEmpty_iff] using hne)]
  have hcols : unionCols (ts.map Table.cols) = [] := by
    apply foldl_addCols_nil
    intro cs hcs
    obtain ⟨t, ht, rfl⟩ := List.mem_map.mp hcs
    rw [h t ht]
    rfl
  show Except.ok ⟨unionCols (ts.map Table.cols),
      (ts.map (fun t => t.alignTo (unionCols (ts.map Table.cols)))).flatten⟩
    = Except.ok (⟨[], []⟩ : Table)
  rw [hcols]
  have hrows : (ts.map (fun t => t.alignTo ([] : List String))).flatten
      = ([] : List (List Val)) := by
    rw [List.flatten_eq_nil_iff]
    intro x hx
    obtain ⟨t, ht, rfl⟩ := List.mem_map.mp hx
    rw [h t ht]
    rfl
  rw [hrows]

/-- A pipeline whose additional-data stage fails fails as a whole. -/
theorem generateExcel_error_of_ad_error (cfg : Config) (env : PipelineEnv)
    (h : (getAdditionalData cfg env).isOk = false) :
    (generateExcelFile cfg env).isOk = false := by
  unfold generateExcelFile
  cases had : getAdditionalData cfg env with
  | error e => rfl
  | ok ad => rw [had] at h; simp [Except.isOk, Except.toBool] at h

/-- A failing pipeline makes the endpoint return the generic message. -/
theorem download_message_of_error (cfg : Config) (env : PipelineEnv)
    (h : (generateExcelFile cfg env).isOk = false) :
    download_report cfg env = DownloadResult.message genericErrorMessage := by
  unfold download_report
  cases hge : generateExcelFile cfg env with
  | ok r => rw [hge] at h; simp [Except.isOk, Except.toBool] at h
  | error e => rfl

/-- With at least one Ozon account and every Ozon info fetch empty, the
`[['barcode', 'sku']]` selection runs on a column-less frame and raises. -/
theorem ad_error_of_ozon_info_empty (cfg : Config) (env : PipelineEnv)
    (hne : cfg.ozon ≠ []) (hempty : ∀ a ∈ cfg.ozon, env.ozonInfo a.pa = []) :
    (getAdditionalData cfg env).isOk = false := by
  have hconcat : pdConcat (cfg.ozon.map (fun a => ozonInfoDf a.pa (env.ozonInfo a.pa)))
      = Except.ok ⟨[], []⟩ := by
    apply pdConcat_all_empty
    · simpa [List.map_eq_nil_iff] using hne
    · intro t ht
      obtain ⟨a, ha, rfl⟩ := List.mem_map.mp ht
      rw [hempty a ha]
      rfl
  unfold getAdditionalData
  rw [hconcat]
  cases h5 : pdConcat (cfg.yandex.map (fun a => yandexInfoDf a.pa (env.yandexInfo a.pa))) with
  | error e => rfl
  | ok yCat =>
    cases h6 : pdConcat (cfg.yandex.map (fun a => yandexWarehousesDf a.pa (env.yandexWarehouses a.pa))) with
    | error e => rfl
    | ok wCat => rfl

/-- An `Except` bind whose continuation always fails fails. -/
theorem except_bind_isOk_false {ε α β : Type} (e : Except ε α)
    (f : α → Except ε β) (h : ∀ a, ((f a).isOk) = false) :
    ((e >>= f).isOk) = false := by
  cases e with
  | error err => rfl
  | ok a => exact h a

/-- Stepping a bind whose first component is a known success. -/
theorem except_bind_ok_step {ε α β : Type} (a : α) (f : α → Except ε β)
    (h : ((f a).isOk) = false) :
    (((Except.ok a : Except ε α) >>= f).isOk) = false := h

/-- With at least one Yandex account and every Yandex offer-mapping fetch
empty, the `[['offerId', 'barcode']]` selection raises. -/
theorem ad_error_of_yandex_info_empty (cfg : Config) (env : PipelineEnv)
    (hne : cfg.yandex ≠ [])
    (hempty : ∀ a ∈ cfg.yandex, env.yandexInfo a.pa = []) :
    (getAdditionalData cfg env).isOk = false := by
  have hconcat : pdConcat (cfg.yandex.map (fun a => yandexInfoDf a.pa (env.yandexInfo a.pa)))
      = Except.ok ⟨[], []⟩ := by
    apply pdConcat_all_empty
    · simpa [List.map_eq_nil_iff] using hne
    · intro t ht
      obtain ⟨a, ha, rfl⟩ := List.mem_map.mp ht
      rw [hempty a ha]
      rfl
  unfold getAdditionalData
  apply except_bind_isOk_false
  intro ozonCat
  rw [hconcat]
  apply except_bind_ok_step
  apply except_bind_isOk_false
  intro wCat
  apply except_bind_isOk_false
  intro ozonSel
  rfl

/-- With at least one Yandex account and every Yandex warehouse fetch empty,
the pipeline fails: `get_additional_data` hands a column-less warehouse
frame downstream and `get_stocks` raises selecting its `warehouseId`
column. -/
theorem pipeline_error_of_yandex_warehouses_empty (cfg : Config)
    (env : PipelineEnv) (hne : cfg.yandex ≠ [])
    (hempty : ∀ a ∈ cfg.yandex, env.yandexWarehouses a.pa = []) :
    (generateExcelFile cfg env).isOk = false := by
  have hconcat : pdConcat (cfg.yandex.map (fun a => yandexWarehousesDf a.pa (env.yandexWarehouses a.pa)))
      = Except.ok ⟨[], []⟩ := by
    apply pdConcat_all_empty
    · simpa [List.map_eq_nil_iff] using hne
    · intro t ht
      obtain ⟨a, ha, rfl⟩ := List.mem_map.mp ht
      rw [hempty a ha]
      rfl
  unfold generateExcelFile
  cases had : getAdditionalData cfg env with
  | error e => rfl
  | ok ad =>
    have hwh : ad.yandex_warehouses = (⟨[], []⟩ : Table) := by
      unfold getAdditionalData at had
      obtain ⟨ozonCat, g1, had⟩ := except_bind_ok _ _ _ had
      obtain ⟨yCat, g2, had⟩ := except_bind_ok _ _ _ had
      obtain ⟨wCat, g3, had⟩ := except_bind_ok _ _ _ had
      obtain ⟨ozonSel, g4, had⟩ := except_bind_ok _ _ _ had
      obtain ⟨ySel, g5, had⟩ := except_bind_ok _ _ _ had
      cases Except.ok.inj had
      rw [hconcat] at g3
      have hw : wCat = (⟨[], []⟩ : Table) := (Except.ok.inj g3).symm
      subst hw
      rfl
    have hst : (getStocks cfg env ad).isOk = false := by
      unfold getStocks
      apply except_bind_isOk_false
      intro wbCat
      apply except_bind_isOk_false
      intro skuVals
      apply except_bind_isOk_false
      intro ozonCat
      apply except_bind_isOk_false
      intro ozonMerged
      apply except_bind_isOk_false
      intro yCat
      apply except_bind_isOk_false
      intro yMerged
      rw [hwh]
      rfl
    apply except_bind_ok_step
    apply except_bind_isOk_false
    intro od
    cases hst2 : getStocks cfg env ad with
    | error e => rfl
    | ok sd => rw [hst2] at hst; simp [Except.isOk, Except.toBool] at hst

/-- C9: if a marketplace has configured accounts but every one of its
info fetches (Ozon product attributes, Yandex offer mappings) comes back
empty, `get_additional_data` raises at the mapping-column selection instead
of returning an empty mapping table, the whole run aborts and the endpoint
returns the generic message; with every Yandex warehouse fetch empty the
run likewise aborts (the raise happening at the `warehouseId` selection in
`get_stocks`). -/
theorem c9_all_empty_info_aborts_pipeline (cfg : Config) (env : PipelineEnv) :
    (cfg.ozon ≠ [] → (∀ a ∈ cfg.ozon, env.ozonInfo a.pa = []) →
      (getAdditionalData cfg env).isOk = false ∧
      (generateExcelFile cfg env).isOk = false ∧
      download_report cfg env = DownloadResult.message genericErrorMessage) ∧
    (cfg.yandex ≠ [] → (∀ a ∈ cfg.yandex, env.yandexInfo a.pa = []) →
      (getAdditionalData cfg env).isOk = false ∧
      (generateExcelFile cfg env).isOk = false ∧
      download_report cfg env = DownloadResult.message genericErrorMessage) ∧
    (cfg.yandex ≠ [] → (∀ a ∈ cfg.yandex, env.yandexWarehouses a.pa = []) →
      (generateExcelFile cfg env).isOk = false ∧
      download_report cfg env = DownloadResult.message genericErrorMessage) := by
  refine ⟨fun h1 h2 => ?_, fun h1 h2 => ?_, fun h1 h2 => ?_⟩
  · have ha := ad_error_of_ozon_info_empty cfg env h1 h2
    have hg := generateExcel_error_of_ad_error cfg env ha
    exact ⟨ha, hg, download_message_of_error cfg env hg⟩
  · have ha := ad_error_of_yandex_info_empty cfg env h1 h2
    have hg := generateExcel_error_of_ad_error cfg env ha
    exact ⟨ha, hg, download_message_of_error cfg env hg⟩
  · have hg := pipeline_error_of_yandex_warehouses_empty cfg env h1 h2
    exact ⟨hg, download_message_of_error cfg env hg⟩

/-- C9, witness: one account per marketplace, every upstream fetch empty —
the pipeline aborts and the endpoint answers with the generic message. -/
theorem c9_all_empty_info_aborts_pipeline_witness :
    (getAdditionalData c4Cfg emptyEnv).isOk = false ∧
    (generateExcelFile c4Cfg emptyEnv).isOk = false ∧
    download_report c4Cfg emptyEnv = DownloadResult.message genericErrorMessage := by
  have h := c9_all_empty_info_aborts_pipeline c4Cfg emptyEnv
  exact h.1 (by decide) (fun a _ => rfl)

/-- Ceiling-division peels off one full chunk: for positive `n`,
`ceil(n/k) = ceil((n-k)/k) + 1`. -/
theorem ceil_div_step (n k : Nat) (hk : 0 < k) (hn : 0 < n) :
    (n + (k - 1)) / k = ((n - k) + (k - 1)) / k + 1 := by
  have e1 : n + (k - 1) = (n - 1) + k := by omega
  rw [e1, Nat.add_div_right _ hk]
  congr 1
  rcases Nat.lt_or_ge n k with h | h
  · rw [Nat.div_eq_of_lt (by omega), Nat.div_eq_of_lt (by omega)]
  · congr 1
    omega

/-- Unfolding of the analytics chunk loop on a non-empty list. -/
theorem analyticsLoop_cons (env : List String → ApiResp (List OzonStockRec))
    (skus : List String) (h : skus ≠ []) :
    analyticsLoop env skus =
      (skus.take ozonChunkSize :: (analyticsLoop env (skus.drop ozonChunkSize)).1,
       apiItems (env (skus.take ozonChunkSize))
         ++ (analyticsLoop env (skus.drop ozonChunkSize)).2) := by
  rw [analyticsLoop.eq_def, if_neg h]

/-- The analytics chunk loop stops on the empty list. -/
theorem analyticsLoop_nil (env : List String → ApiResp (List OzonStockRec)) :
    analyticsLoop env [] = ([], []) := by
  rw [analyticsLoop.eq_def]
  rfl

/-- The chunk loop issues `ceil(L / 100)` requests. -/
theorem analyticsLoop_reqs_length (env : List String → ApiResp (List OzonStockRec))
    (skus : List String) :
    ((analyticsLoop env skus).1).length
      = (skus.length + (ozonChunkSize - 1)) / ozonChunkSize := by
  by_cases h : skus = []
  · subst h
    rw [analyticsLoop_nil]
    rfl
  · rw [analyticsLoop_cons env skus h]
    simp only [List.length_cons]
    rw [analyticsLoop_reqs_length env (skus.drop ozonChunkSize)]
    rw [List.length_drop]
    have h0 : skus.length ≠ 0 := fun h0 => h (List.length_eq_zero.mp h0)
    have hstep := ceil_div_step skus.length ozonChunkSize (by decide)
      (Nat.pos_of_ne_zero h0)
    omega
termination_by skus.length
decreasing_by
  simp only [List.length_drop]
  have hk : 0 < ozonChunkSize := by decide
  have hne : skus.length ≠ 0 := fun h0 => h (List.length_eq_zero.mp h0)
  omega

/-- Every chunk request carries at most 100 keys, and at least one. -/
theorem analyticsLoop_reqs_bounded (env : List String → ApiResp (List OzonStockRec))
    (skus : List String) :
    ∀ c ∈ (analyticsLoop env skus).1, c ≠ [] ∧ c.length ≤ ozonChunkSize := by
  by_cases h : skus = []
  · subst h
    rw [analyticsLoop_nil]
    intro c hc
    simp at hc
  · rw [analyticsLoop_cons env skus h]
    intro c hc
    rcases List.mem_cons.mp hc with h1 | h2
    · subst h1
      refine ⟨?_, List.length_take_le _ _⟩
      intro h0
      rcases List.take_eq_nil_iff.mp h0 with h3 | h3
      · exact absurd h3 (by decide)
      · exact h h3
    · exact analyticsLoop_reqs_bounded env (skus.drop ozonChunkSize) c h2
termination_by skus.length
decreasing_by
  simp only [List.length_drop]
  have hk : 0 < ozonChunkSize := by decide
  have hne : skus.length ≠ 0 := fun h0 => h (List.length_eq_zero.mp h0)
  omega

/-- The chunk requests partition the SKU list in order. -/
theorem analyticsLoop_reqs_flatten (env : List String → ApiResp (List OzonStockRec))
    (skus : List String) :
    ((analyticsLoop env skus).1).flatten = skus := by
  by_cases h : skus = []
  · subst h
    rw [analyticsLoop_nil]
    rfl
  · rw [analyticsLoop_cons env skus h]
    simp only [List.flatten_cons]
    rw [analyticsLoop_reqs_flatten env (skus.drop ozonChunkSize)]
    exact List.take_append_drop _ skus
termination_by skus.length
decreasing_by
  simp only [List.length_drop]
  have hk : 0 < ozonChunkSize := by decide
  have hne : skus.length ≠ 0 := fun h0 => h (List.length_eq_zero.mp h0)
  omega

/-- The accumulated items are the per-request items concatenated in request
order (a failed request contributing `[]`). -/
theorem analyticsLoop_results (env : List String → ApiResp (List OzonStockRec))
    (skus : List String) :
    (analyticsLoop env skus).2
      = ((analyticsLoop env skus).1).flatMap (fun c => apiItems (env c)) := by
  by_cases h : skus = []
  · subst h
    rw [analyticsLoop_nil]
    rfl
  · rw [analyticsLoop_cons env skus h]
    simp only [List.flatMap_cons]
    rw [analyticsLoop_results env (skus.drop ozonChunkSize)]
termination_by skus.length
decreasing_by
  simp only [List.length_drop]
  have hk : 0 < ozonChunkSize := by decide
  have hne : skus.length ≠ 0 := fun h0 => h (List.length_eq_zero.mp h0)
  omega

/-- The guarded entry point equals the loop. -/
theorem get_ozon_analytics_stocks_eq_loop (env : List String → ApiResp (List OzonStockRec))
    (skus : List String) :
    get_ozon_analytics_stocks env skus = analyticsLoop env skus := by
  unfold get_ozon_analytics_stocks
  by_cases h : skus = []
  · rw [if_pos h, h, analyticsLoop_nil]
  · rw [if_neg h]

/-- C6: for a SKU list of length `L` the analytics-stocks fetch issues
exactly `ceil(L/100)` batch requests, each carrying at most 100 (and at
least one) keys, the batches partition the input list in order, and the
result is the per-batch item lists concatenated in input order — a failed
batch contributes `[]` (see `apiItems`) and appears exactly once among the
requests, so it is never retried. -/
theorem c6_analytics_stocks_batching
    (env : List String → ApiResp (List OzonStockRec)) (skus : List String) :
    (get_ozon_analytics_stocks env skus).1.length = (skus.length + 99) / 100 ∧
    (∀ c ∈ (get_ozon_analytics_stocks env skus).1, c ≠ [] ∧ c.length ≤ 100) ∧
    (get_ozon_analytics_stocks env skus).1.flatten = skus ∧
    (get_ozon_analytics_stocks env skus).2
      = (get_ozon_analytics_stocks env skus).1.flatMap (fun c => apiItems (env c)) := by
  rw [get_ozon_analytics_stocks_eq_loop]
  exact ⟨analyticsLoop_reqs_length env skus,
    analyticsLoop_reqs_bounded env skus,
    analyticsLoop_reqs_flatten env skus,
    analyticsLoop_results env skus⟩

set_option maxRecDepth 4000 in
/-- C6, witness: 250 SKUs are fetched in exactly 3 batches that partition
the list. -/
theorem c6_analytics_stocks_batching_witness :
    (get_ozon_analytics_stocks c6Env c6Skus).1.length = 3 ∧
    (get_ozon_analytics_stocks c6Env c6Skus).1.flatten = c6Skus := by
  have h := c6_analytics_stocks_batching c6Env c6Skus
  exact ⟨h.1.trans (by simp [c6Skus]), h.2.2.1⟩

/-- Unfolding of the FBO day-window loop while the window start is before
the range end. -/
theorem fboLoop_step (env : Nat × Nat → ApiResp (List OzonPostingRec))
    (cur endT : Nat) (h : cur < endT) :
    fboLoop env cur endT =
      ((cur, min (cur + ozonDayMinutes) endT)
          :: (fboLoop env (cur + ozonDayMinutes) endT).1,
       apiItems (env (cur, min (cur + ozonDayMinutes) endT))
          ++ (fboLoop env (cur + ozonDayMinutes) endT).2) := by
  rw [fboLoop.eq_def, if_pos h]

/-- The FBO loop stops once the start reaches the end. -/
theorem fboLoop_stop (env : Nat × Nat → ApiResp (List OzonPostingRec))
    (cur endT : Nat) (h : ¬ cur < endT) : fboLoop env cur endT = ([], []) := by
  rw [fboLoop.eq_def, if_neg h]

/-- The FBO loop issues `ceil((end - cur) / 1 day)` requests. -/
theorem fboLoop_reqs_length (env : Nat × Nat → ApiResp (List OzonPostingRec))
    (cur endT : Nat) :
    ((fboLoop env cur endT).1).length
      = ((endT - cur) + (ozonDayMinutes - 1)) / ozonDayMinutes := by
  by_cases h : cur < endT
  · rw [fboLoop_step env cur endT h]
    simp only [List.length_cons]
    rw [fboLoop_reqs_length env (cur + ozonDayMinutes) endT]
    have hd : 0 < ozonDayMinutes := by decide
    have hstep := ceil_div_step (endT - cur) ozonDayMinutes hd (by omega)
    have he : endT - (cur + ozonDayMinutes) = (endT - cur) - ozonDayMinutes := by omega
    rw [he]
    omega
  · rw [fboLoop_stop env cur endT h]
    have he : endT - cur = 0 := by omega
    rw [he]
    simp only [List.length_nil]
    rw [Nat.div_eq_of_lt (by decide)]
termination_by endT - cur
decreasing_by
  have hd : 0 < ozonDayMinutes := by decide
  omega

/-- Every issued window starts strictly before its end, ends at
`min (start + 1 day) end`, and spans at most one day. -/
theorem fboLoop_windows (env : Nat × Nat → ApiResp (List OzonPostingRec))
    (cur endT : Nat) :
    ∀ w ∈ (fboLoop env cur endT).1,
      w.1 < w.2 ∧ w.2 = min (w.1 + ozonDayMinutes) endT
        ∧ w.2 - w.1 ≤ ozonDayMinutes := by
  by_cases h : cur < endT
  · rw [fboLoop_step env cur endT h]
    intro w hw
    rcases List.mem_cons.mp hw with h1 | h2
    · subst h1
      have hd : 0 < ozonDayMinutes := by decide
      exact ⟨by simp; omega, rfl, by simp; omega⟩
    · exact fboLoop_windows env (cur + ozonDayMinutes) endT w h2
  · rw [fboLoop_stop env cur endT h]
    intro w hw
    simp at hw
termination_by endT - cur
decreasing_by
  have hd : 0 < ozonDayMinutes := by decide
  omega

/-- Pushing an element on a list with a known last element. -/
theorem getLast?_cons_of_getLast? {α : Type} (a : α) (l : List α) (w : α)
    (h : l.getLast? = some w) : (a :: l).getLast? = some w := by
  cases l with
  | nil => simp at h
  | cons b t => rw [List.getLast?_cons_cons]; exact h

/-- For a non-degenerate range the last issued window ends exactly at the
range end (the final window is truncated to `to`). -/
theorem fboLoop_last (env : Nat × Nat → ApiResp (List OzonPostingRec))
    (cur endT : Nat) (h : cur < endT) :
    ∃ w, ((fboLoop env cur endT).1).getLast? = some w ∧ w.2 = endT := by
  rw [fboLoop_step env cur endT h]
  by_cases h2 : cur + ozonDayMinutes < endT
  · obtain ⟨w, hw, hend⟩ := fboLoop_last env (cur + ozonDayMinutes) endT h2
    exact ⟨w, getLast?_cons_of_getLast? _ _ _ hw, hend⟩
  · rw [fboLoop_stop env _ _ h2]
    refine ⟨(cur, min (cur + ozonDayMinutes) endT), rfl, ?_⟩
    simp
    omega
termination_by endT - cur
decreasing_by
  have hd : 0 < ozonDayMinutes := by decide
  omega

/-- Consecutive windows are issued in chronological order: each next window
starts exactly one day after the previous one. -/
theorem fboLoop_chrono (env : Nat × Nat → ApiResp (List OzonPostingRec))
    (cur endT : Nat) :
    ((fboLoop env cur endT).1).Chain' (fun a b => b.1 = a.1 + ozonDayMinutes) := by
  by_cases h : cur < endT
  · rw [fboLoop_step env cur endT h]
    rw [List.chain'_cons']
    refine ⟨?_, fboLoop_chrono env (cur + ozonDayMinutes) endT⟩
    intro b hb
    by_cases h2 : cur + ozonDayMinutes < endT
    · rw [fboLoop_step env _ _ h2] at hb
      simp at hb
      rw [← hb]
    · rw [fboLoop_stop env _ _ h2] at hb
      simp at hb
  · rw [fboLoop_stop env cur endT h]
    exact List.chain'_nil
termination_by endT - cur
decreasing_by
  have hd : 0 < ozonDayMinutes := by decide
  omega

/-- The accumulated postings are the per-window results concatenated in
window (= chronological) order; a failed window contributes `[]`. -/
theorem fboLoop_results (env : Nat × Nat → ApiResp (List OzonPostingRec))
    (cur endT : Nat) :
    (fboLoop env cur endT).2
      = ((fboLoop env cur endT).1).flatMap (fun w => apiItems (env w)) := by
  by_cases h : cur < endT
  · rw [fboLoop_step env cur endT h]
    simp only [List.flatMap_cons]
    rw [fboLoop_results env (cur + ozonDayMinutes) endT]
  · rw [fboLoop_stop env cur endT h]
    rfl
termination_by endT - cur
decreasing_by
  have hd : 0 < ozonDayMinutes := by decide
  omega

/-- C5: for a well-formed parsed date range `since < to` (minute
granularity, one day = 1440 minutes), the FBO fetch completes and issues
exactly `ceil((to - since)/1 day)` windowed requests; every window spans at
most one day and ends at `min (start + 1 day, to)`; the windows proceed
chronologically in day steps and the last one is truncated to `to`; the
returned postings are the per-window results concatenated in window
order. -/
theorem c5_fbo_day_chunking (env : Nat × Nat → ApiResp (List OzonPostingRec))
    (sinceT toT : Nat) (h : sinceT < toT) :
    ∃ out,
      get_ozon_posting_fbo_list env (DateStr.wellFormed sinceT)
          (DateStr.wellFormed toT) = Except.ok out ∧
      out.1.length = ((toT - sinceT) + 1439) / 1440 ∧
      (∀ w ∈ out.1, w.1 < w.2 ∧ w.2 = min (w.1 + 1440) toT
          ∧ w.2 - w.1 ≤ 1440) ∧
      (∃ w, out.1.getLast? = some w ∧ w.2 = toT) ∧
      out.1.Chain' (fun a b => b.1 = a.1 + 1440) ∧
      out.2 = out.1.flatMap (fun w => apiItems (env w)) := by
  exact ⟨fboLoop env sinceT toT, rfl,
    fboLoop_reqs_length env sinceT toT,
    fboLoop_windows env sinceT toT,
    fboLoop_last env sinceT toT h,
    fboLoop_chrono env sinceT toT,
    fboLoop_results env sinceT toT⟩

/-- C5, witness: the range `[0, 3000)` minutes (2 days and 120 minutes)
produces exactly 3 windowed requests, the last ending at 3000. -/
theorem c5_fbo_day_chunking_witness :
    ∃ out,
      get_ozon_posting_fbo_list c5Env (DateStr.wellFormed 0)
          (DateStr.wellFormed 3000) = Except.ok out ∧
      out.1.length = 3 ∧
      (∃ w, out.1.getLast? = some w ∧ w.2 = 3000) := by
  obtain ⟨out, hout, h1, _, h3, _⟩ := c5_fbo_day_chunking c5Env 0 3000 (by decide)
  exact ⟨out, hout, h1.trans (by decide), h3⟩

/-- C7: when the first `k` upstream pages carry a `nextPageToken` and page
`k` omits it, the cursor-paginated Yandex fetch consumes exactly pages
`0..k` — later responses are never requested — and returns the page item
lists concatenated in page order.  (`get_yandex_offers_stocks`,
`get_yandex_orders` and `get_yandex_offer_mappings` are all instances of
`yandexPaginate`.) -/
theorem c7_pagination_stops_at_first_tokenless {α : Type}
    (pages : List (YResp α)) (k : Nat) (its : List α)
    (htoken : ∀ i, i < k → ∃ its2 t, pages[i]? = some (YResp.ok its2 (some t)))
    (hk : pages[k]? = some (YResp.ok its none)) :
    yandexPaginate pages = (pages.take (k + 1)).flatMap pageItems ∧
    yandexPaginate pages = yandexPaginate (pages.take (k + 1)) := by
  induction k generalizing pages with
  | zero =>
    cases pages with
    | nil => simp at hk
    | cons p rest =>
      simp at hk
      subst hk
      exact ⟨by simp [yandexPaginate, pageItems], rfl⟩
  | succ k ih =>
    cases pages with
    | nil => simp at hk
    | cons p rest =>
      obtain ⟨its2, t, hp⟩ := htoken 0 (Nat.succ_pos k)
      simp at hp
      subst hp
      have htoken2 : ∀ i, i < k →
          ∃ its2 t, rest[i]? = some (YResp.ok its2 (some t)) := by
        intro i hi
        have h0 := htoken (i + 1) (by omega)
        simpa using h0
      have hk2 : rest[k]? = some (YResp.ok its none) := by simpa using hk
      obtain ⟨ih1, ih2⟩ := ih rest htoken2 hk2
      constructor
      · show its2 ++ yandexPaginate rest = _
        rw [ih1]
        simp [List.take_succ_cons, pageItems]
      · show its2 ++ yandexPaginate rest
            = yandexPaginate (YResp.ok its2 (some t) :: rest.take (k + 1))
        rw [ih2]
        rfl

/-- C7, witness: the orders fetch on `c7Pages` consumes the first two pages
only and returns the first page's single order. -/
theorem c7_pagination_witness :
    get_yandex_orders c7Pages = [c8Order] ∧
    get_yandex_orders c7Pages = yandexPaginate (c7Pages.take 2) := by
  have h := c7_pagination_stops_at_first_tokenless c7Pages 1 []
    (by
      intro i hi
      have h0 : i = 0 := by omega
      subst h0
      exact ⟨[c8Order], "t1", rfl⟩)
    rfl
  exact ⟨h.1.trans rfl, h.2⟩

/-- C10: as called by the shaper (no offset argument, so Python's default
`offset = 0`), the FBS fetch issues exactly one request whose payload has
`limit = 1000` and `offset = 0`, never follows up with further pages, and
returns exactly that single response's postings — so when the upstream
honours the limit, at most 1000 FBS postings per account are retrieved. -/
theorem c10_fbs_single_request
    (env : FbsPayload → ApiResp (List OzonPostingRec))
    (hcap : ∀ q, (apiItems (env q)).length ≤ q.limit) :
    (fbs_call_from_shaper env).1 = [⟨1000, 0⟩] ∧
    (fbs_call_from_shaper env).1.length = 1 ∧
    (fbs_call_from_shaper env).2 = apiItems (env ⟨1000, 0⟩) ∧
    (fbs_call_from_shaper env).2.length ≤ 1000 :=
  ⟨rfl, rfl, rfl, hcap ⟨1000, 0⟩⟩

/-- C10, witness: the theorem at a concrete limit-honouring upstream; one
request with limit 1000 and offset 0, one posting retrieved. -/
theorem c10_fbs_single_request_witness :
    (fbs_call_from_shaper c10Env).1 = [⟨1000, 0⟩] ∧
    (fbs_call_from_shaper c10Env).2.length ≤ 1000 := by
  have h := c10_fbs_single_request c10Env (by
    intro q
    unfold c10Env
    by_cases hq : q.limit = 0
    · simp [hq, apiItems]
    · simp [hq, apiItems]
      omega)
  exact ⟨h.1, h.2.2.2⟩

/-- A failed single request yields no items. -/
theorem apiItems_eq_nil_of_failed {α : Type} (r : ApiResp (List α))
    (h : r.failed = true) : apiItems r = [] := by
  cases r with
  | exn => rfl
  | err s => rfl
  | ok l => exact absurd h (by simp [ApiResp.failed])

/-- C3, counterexample: the claim fails on two independent inputs.  A 200
Wildberries response whose JSON decodes to a non-list document (a malformed
response in the spec's taxonomy) is returned unchanged by `get_wb_orders` —
not as an empty list; and the FBO fetch RAISES to its caller on a
type-correct date string that does not match `%Y-%m-%dT%H:%M:%S.%fZ`
(e.g. an RFC3339 stamp without fractional seconds), because its `strptime`
calls sit outside the try/except. -/
theorem c3_counterexample :
    (get_wb_orders 0 (WBResp.resp 200 (some (WBBody.jother "error-object")))
      = WBBody.jother "error-object" ∧
     WBBody.jother "error-object" ≠ WBBody.jlist []) ∧
    (get_ozon_posting_fbo_list c5Env
        (DateStr.malformed "2024-01-01T00:00:00Z")
        (DateStr.wellFormed 0)).isOk = false := by
  refine ⟨⟨rfl, ?_⟩, rfl⟩
  intro h
  exact WBBody.noConfusion h

/-- C3 (amended): on a transport error, an unexpected exception, or a
non-200 status every operation returns an empty result and does not raise —
with two exceptions exhibited by `c3_counterexample`: WB passes a decoded
non-list 200 body through unchanged, and the FBO fetch raises `ValueError`
to its caller when a `since`/`to` string does not match the `strptime`
format (that parse happens outside its try/except); with well-formed dates
the FBO fetch completes and all-window failures yield `[]`.  For the
batch-chunked analytics fetch the conclusion shown is for all batches
failing, and for the paginated Yandex fetches for the first page failing
(a later failure keeps the already-accumulated prefix). -/
theorem c3_failure_returns_empty_amended :
    (∀ (flag : Int) (r : WBResp), r.failed = true →
      get_wb_orders flag r = WBBody.jlist []) ∧
    (∀ r : WBResp, r.failed = true → get_wb_stocks r = WBBody.jlist []) ∧
    (∀ r : ApiResp (List OzonInfoRec), r.failed = true →
      get_ozon_product_info_attributes r = []) ∧
    (∀ (env : List String → ApiResp (List OzonStockRec)) (skus : List String),
      (∀ c, (env c).failed = true) →
      (get_ozon_analytics_stocks env skus).2 = []) ∧
    (∀ (env : Nat × Nat → ApiResp (List OzonPostingRec)) (sinceT toT : Nat),
      (∀ w, (env w).failed = true) →
      ∃ out, get_ozon_posting_fbo_list env (DateStr.wellFormed sinceT)
          (DateStr.wellFormed toT) = Except.ok out ∧ out.2 = []) ∧
    (∀ (env : Nat × Nat → ApiResp (List OzonPostingRec)) (bad : String)
        (d : DateStr),
      (get_ozon_posting_fbo_list env (DateStr.malformed bad) d).isOk
        = false) ∧
    (∀ (env : FbsPayload → ApiResp (List OzonPostingRec)) (offset : Nat),
      (∀ q, (env q).failed = true) →
      (get_ozon_posting_fbs_list env offset).2 = []) ∧
    (∀ (p : YResp YStockWarehouseRec) (rest : List (YResp YStockWarehouseRec)),
      p.failed = true → get_yandex_offers_stocks (p :: rest) = []) ∧
    (∀ (p : YResp YOrderRec) (rest : List (YResp YOrderRec)),
      p.failed = true → get_yandex_orders (p :: rest) = []) ∧
    (∀ (p : YResp YMappingRec) (rest : List (YResp YMappingRec)),
      p.failed = true → get_yandex_offer_mappings (p :: rest) = []) ∧
    (∀ r : ApiResp (List YWarehouseRec), r.failed = true →
      get_yandex_warehouses r = []) := by
  refine ⟨?_, ?_, ?_, ?_, ?_, ?_, ?_, ?_, ?_, ?_, ?_⟩
  · intro flag r hf
    unfold get_wb_orders
    by_cases hflag : flag ≠ 0 ∧ flag ≠ 1
    · rw [if_pos hflag]
    · rw [if_neg hflag]
      cases r with
      | exn => rfl
      | resp s body =>
        simp [WBResp.failed] at hf
        split
        · rename_i b heq
          injection heq with h1 h2
          rcases hf with hf | hf
          · exact absurd h1 hf
          · rw [h2] at hf
            exact Option.noConfusion hf
        · rfl
  · intro r hf
    unfold get_wb_stocks
    cases r with
    | exn => rfl
    | resp s body =>
      simp [WBResp.failed] at hf
      split
      · rename_i b heq
        injection heq with h1 h2
        rcases hf with hf | hf
        · exact absurd h1 hf
        · rw [h2] at hf
          exact Option.noConfusion hf
      · rfl
  · intro r hf
    exact apiItems_eq_nil_of_failed r hf
  · intro env skus hfail
    rw [get_ozon_analytics_stocks_eq_loop, analyticsLoop_results]
    rw [List.flatMap_eq_nil_iff]
    intro c hc
    exact apiItems_eq_nil_of_failed _ (hfail c)
  · intro env sinceT toT hfail
    refine ⟨fboLoop env sinceT toT, rfl, ?_⟩
    rw [fboLoop_results]
    rw [List.flatMap_eq_nil_iff]
    intro w hw
    exact apiItems_eq_nil_of_failed _ (hfail w)
  · intro env bad d
    rfl
  · intro env offset hfail
    unfold get_ozon_posting_fbs_list
    exact apiItems_eq_nil_of_failed _ (hfail ⟨1000, offset⟩)
  · intro p rest hf
    cases p with
    | exn => rfl
    | err s => rfl
    | ok items next => exact absurd hf (by simp [YResp.failed])
  · intro p rest hf
    cases p with
    | exn => rfl
    | err s => rfl
    | ok items next => exact absurd hf (by simp [YResp.failed])
  · intro p rest hf
    cases p with
    | exn => rfl
    | err s => rfl
    | ok items next => exact absurd hf (by simp [YResp.failed])
  · intro r hf
    exact apiItems_eq_nil_of_failed r hf

/-- C3, witness: the amended theorem at concrete failing responses —
connection error for WB, HTTP 500 for the warehouse list, HTTP 429 for
every analytics batch, connection errors for every FBO window, a malformed
FBO date, and a failed first page for Yandex orders. -/
theorem c3_failure_returns_empty_amended_witness :
    get_wb_orders 0 WBResp.exn = WBBody.jlist [] ∧
    get_yandex_warehouses (ApiResp.err 500) = [] ∧
    (get_ozon_analytics_stocks (fun _ => ApiResp.err 429) ["a", "b"]).2 = [] ∧
    (∃ out, get_ozon_posting_fbo_list (fun _ => ApiResp.exn)
        (DateStr.wellFormed 0) (DateStr.wellFormed 3000) = Except.ok out
        ∧ out.2 = []) ∧
    (get_ozon_posting_fbo_list c5Env (DateStr.malformed "not-a-date")
        (DateStr.wellFormed 0)).isOk = false ∧
    get_yandex_orders [YResp.exn] = [] := by
  have h := c3_failure_returns_empty_amended
  exact ⟨h.1 0 WBResp.exn rfl,
    h.2.2.2.2.2.2.2.2.2.2 (ApiResp.err 500) rfl,
    h.2.2.2.1 (fun _ => ApiResp.err 429) ["a", "b"] (fun c => rfl),
    h.2.2.2.2.1 (fun _ => ApiResp.exn) 0 3000 (fun w => rfl),
    h.2.2.2.2.2.1 c5Env "not-a-date" (DateStr.wellFormed 0),
    h.2.2.2.2.2.2.2.2.1 YResp.exn [] rfl⟩
